import Mathlib

/-!
Verification of the manosaba-textbox core against its specification.

The Python source is shallowly embedded: pure fragments become Lean
functions, the module-level mutable caches become explicit state records
threaded through the functions, PIL image objects become a small record of
the observable attributes the code reads (width, height, constant fill),
and Python object identity (needed to distinguish "returns a copy" from
"returns the cached master") is modelled by a heap of numbered cells.
Fallible code returns Except.  Names follow the source, with leading
underscores dropped where Lean requires it.
-/

namespace Manosaba

/-! ## Canvas size (src/core.py, `_calculate_canvas_size`) -/

/-- Embedding of `_calculate_canvas_size` in src/core.py: fixed width 2560,
height chosen from the configured aspect-ratio string. -/
def calculate_canvas_size (aspect_ratio : String) : Nat × Nat :=
  if aspect_ratio = "5:4" then (2560, 2048)
  else if aspect_ratio = "16:9" then (2560, 1440)
  else (2560, 854)

/-! ## Cache partitions and `clear_cache` (src/load_utils.py) -/

/-- The four module-level cache dictionaries of src/load_utils.py, with the
entry types abstracted (the claims about `clear_cache` are independent of
what the partitions store). -/
structure Caches (α β γ δ : Type) where
  font_cache : List (String × α)
  background_cache : List (String × β)
  character_cache : List (String × γ)
  general_image_cache : List (String × δ)
deriving DecidableEq

/-- Embedding of `clear_cache` in src/load_utils.py: each partition is
cleared iff `cache_type` names it (the general partition's name is
"image") or is "all". -/
def clear_cache (cache_type : String) (s : Caches α β γ δ) : Caches α β γ δ :=
  let s1 := if cache_type = "font" ∨ cache_type = "all"
            then { s with font_cache := [] } else s
  let s2 := if cache_type = "background" ∨ cache_type = "all"
            then { s1 with background_cache := [] } else s1
  let s3 := if cache_type = "character" ∨ cache_type = "all"
            then { s2 with character_cache := [] } else s2
  if cache_type = "image" ∨ cache_type = "all"
  then { s3 with general_image_cache := [] } else s3

/-! ## Cut keystrokes (src/core.py, `generate_image`, cut branch) -/

/-- The keyboard keys the cut branch of `generate_image` can press. -/
inductive PKey
  | ctrl | cmd | shift | home | endKey | ch (c : Char)
deriving DecidableEq

/-- A single keyboard-controller event. -/
inductive KeyEvt
  | press (k : PKey)
  | release (k : PKey)
deriving DecidableEq

/-- `sys.platform.startswith("win")`, the platform test used by core.py,
expressed on the character lists of the strings. -/
def is_win (platform : String) : Bool := "win".data.isPrefixOf platform.data

/-- Embedding of the cut branch of `generate_image` (src/core.py lines
540-587): the exact key-event sequence injected for each `cut_mode`.
`direct` presses ctrl+x unconditionally; `single_line` and the default
full mode branch on the platform. -/
def cutKeystrokes (platform : String) (cut_mode : String) : List KeyEvt :=
  if cut_mode = "direct" then
    [.press .ctrl, .press (.ch 'x'), .release (.ch 'x'), .release .ctrl]
  else if cut_mode = "single_line" then
    if is_win platform then
      [.press .endKey, .release .endKey,
       .press .shift, .press .home, .release .home, .release .shift,
       .press .ctrl, .press (.ch 'x'), .release (.ch 'x'), .release .ctrl]
    else
      [.press .shift, .press .home, .release .home, .release .shift,
       .press .cmd, .press (.ch 'x'), .release (.ch 'x'), .release .cmd]
  else
    if is_win platform then
      [.press .ctrl, .press (.ch 'a'), .release (.ch 'a'),
       .press (.ch 'x'), .release (.ch 'x'), .release .ctrl]
    else
      [.press .cmd, .press (.ch 'a'), .release (.ch 'a'),
       .press (.ch 'x'), .release (.ch 'x'), .release .cmd]

/-! ## Images, fonts, and the object heap (src/load_utils.py)

A PIL image is modelled by the attributes the source reads: width, height,
and, for images created by `Image.new` with a constant colour, that RGBA
fill (decoded file content is opaque to the model, `fill = none`).
Python object identity is modelled by a heap of numbered cells: `.copy()`
allocates a fresh cell with the same value, while returning a stored
reference hands out the very cell held by the cache. -/

/-- An RGBA colour.  `Image.new("RGBA", size, (r, g, b))` with a 3-tuple
fills with alpha 255 (opaque); a 4-tuple gives the alpha explicitly. -/
structure Rgba where
  r : Nat
  g : Nat
  b : Nat
  a : Nat
deriving DecidableEq, Repr

/-- Observable attributes of a PIL image object. -/
structure MImage where
  width : Nat
  height : Nat
  fill : Option Rgba
deriving DecidableEq, Repr

instance : Inhabited MImage := ⟨⟨0, 0, none⟩⟩

/-- Observable attributes of a PIL font object. -/
structure MFont where
  path : String
  size : Nat
deriving DecidableEq, Repr

/-- A heap of numbered object cells; `next` is the next fresh address. -/
structure Heap (α : Type) where
  next : Nat
  cells : List (Nat × α)
deriving DecidableEq

/-- Allocate a fresh cell holding `v`; returns the new heap and the
address of the cell. -/
def Heap.alloc (h : Heap α) (v : α) : Heap α × Nat :=
  (⟨h.next + 1, (h.next, v) :: h.cells⟩, h.next)

/-- Read the value stored at address `r`. -/
def Heap.get (h : Heap α) (r : Nat) : Option α :=
  h.cells.lookup r

/-- Well-formed heap: every allocated address is below `next`, so a fresh
allocation can never collide with an existing cell. -/
def Heap.wf (h : Heap α) : Prop :=
  ∀ p ∈ h.cells, p.1 < h.next

/-- The file system seen through `os.path.exists`, `Image.open` and the
font/asset path helpers: the set of existing paths, the pixel size of each
image file, and the resolution of a font name to a path.  `fontPath`
stands for `path_utils.get_font_path`, whose module is outside the
embedded core; only the resulting path string matters here. -/
structure FS where
  files : List String
  dims : String → Nat × Nat
  fontPath : String → String

/-! ### Asset path resolution (src/load_utils.py, `get_image_path` etc.) -/

/-- The image extensions `get_image_path` probes, in order. -/
def supported_formats : List String :=
  [".png", ".jpg", ".jpeg", ".bmp", ".gif", ".webp"]

/-- `os.path.join("assets", sub_dir, name)` under a resource root modelled
as the empty prefix. -/
def assetPath (sub_dir name : String) : String :=
  "assets/" ++ sub_dir ++ "/" ++ name

/-- Embedding of `get_image_path`: try each supported extension and return
the first existing path, defaulting to the `.png` path when none exists. -/
def get_image_path (fs : FS) (base_name : String) (sub_dir : String) : String :=
  match supported_formats.find?
      (fun ext => fs.files.contains (assetPath sub_dir (base_name ++ ext))) with
  | some ext => assetPath sub_dir (base_name ++ ext)
  | none => assetPath sub_dir (base_name ++ ".png")

/-- Embedding of `get_background_path`. -/
def get_background_path (fs : FS) (background_name : String) : String :=
  get_image_path fs background_name "background"

/-- Embedding of `get_character_path`. -/
def get_character_path (fs : FS) (character_name : String) (emotion_index : Nat) : String :=
  get_image_path fs (character_name ++ " (" ++ toString emotion_index ++ ")")
    ("chara/" ++ character_name)

/-- `path.rsplit(".", 1)[0]`: drop the final extension, if any, working
on the character list of the path. -/
def dropExtension (s : String) : String :=
  let after := s.data.reverse.dropWhile (fun c => c ≠ '.')
  if after.isEmpty then s else ⟨(after.drop 1).reverse⟩

/-! ### The loaders -/

/-- Proportional resize to width 2560, as both branches of
`load_background_safe` perform.  The source computes
`int(height * (2560 / width))` in floating point; Nat division agrees
with it on every input where `height * 2560` is divisible by `width`,
which holds at all inputs the claims evaluate. -/
def resizeToWidth2560 (img : MImage) : MImage :=
  if img.width = 2560 then img
  else { img with width := 2560, height := img.height * 2560 / img.width }

/-- Embedding of `load_font_cached`: on a cache hit the stored reference
itself is returned (the source returns `_font_cache[cache_key]` with no
copy); on a miss with the file present a font object is allocated, cached,
and that same master reference returned.  A missing font file makes
`ImageFont.truetype` raise, which propagates. -/
def load_font_cached (fs : FS) (h : Heap MFont) (cache : List (String × Nat))
    (font_name : String) (size : Nat) :
    Except String (Heap MFont × List (String × Nat) × Nat) :=
  let cache_key := font_name ++ "_" ++ toString size
  match cache.lookup cache_key with
  | some r => .ok (h, cache, r)
  | none =>
    let font_path := fs.fontPath font_name
    if fs.files.contains font_path then
      let (h1, r) := h.alloc ⟨font_path, size⟩
      .ok (h1, (cache_key, r) :: cache, r)
    else
      .error ("字体文件不存在: " ++ font_path)

/-- Embedding of `load_image_cached`: a cache miss on a missing (or empty)
path raises `FileNotFoundError`, uncaught; otherwise the entry is decoded
and cached on first use and every return value is a `.copy()` of the
cached master. -/
def load_image_cached (fs : FS) (h : Heap MImage) (cache : List (String × Nat))
    (image_path : String) :
    Except String (Heap MImage × List (String × Nat) × Nat) :=
  match cache.lookup image_path with
  | some r =>
    let (h1, rc) := h.alloc ((h.get r).getD default)
    .ok (h1, cache, rc)
  | none =>
    if (image_path != "") && fs.files.contains image_path then
      let (w, ht) := fs.dims image_path
      let (h1, rm) := h.alloc ⟨w, ht, none⟩
      let (h2, rc) := h1.alloc ⟨w, ht, none⟩
      .ok (h2, (image_path, rm) :: cache, rc)
    else
      .error ("图片文件不存在: " ++ image_path)

/-- Embedding of `load_background_safe`: a cached or freshly decoded
background is returned as a `.copy()` of the master (decoded entries are
resized to width 2560 before caching); a missing file is caught and a new
800x600 image filled with `(100, 100, 200)` — alpha 255, PIL's default
for a 3-tuple — is resized to width 2560 and returned without caching. -/
def load_background_safe (fs : FS) (h : Heap MImage) (cache : List (String × Nat))
    (background_name : String) :
    Heap MImage × List (String × Nat) × Nat :=
  let background_path := get_background_path fs background_name
  match cache.lookup background_path with
  | some r =>
    let (h1, rc) := h.alloc ((h.get r).getD default)
    (h1, cache, rc)
  | none =>
    if fs.files.contains background_path then
      let (w, ht) := fs.dims background_path
      let img := resizeToWidth2560 ⟨w, ht, none⟩
      let (h1, rm) := h.alloc img
      let (h2, rc) := h1.alloc img
      (h2, (background_path, rm) :: cache, rc)
    else
      let default_img := resizeToWidth2560 ⟨800, 600, some ⟨100, 100, 200, 255⟩⟩
      let (h1, rd) := h.alloc default_img
      (h1, cache, rd)

/-- Embedding of `load_character_safe`: the cache key is the path without
its extension; a cached or freshly decoded entry (scaled at decode time by
the configured scale, modelled as the exact ratio `scaleNum / scaleDen`)
is returned as a `.copy()` of the master; a missing file is caught and a
fresh fully transparent 800x600 image is returned without caching. -/
def load_character_safe (fs : FS) (h : Heap MImage) (cache : List (String × Nat))
    (character_name : String) (emotion_index : Nat)
    (scaleNum scaleDen : Nat) :
    Heap MImage × List (String × Nat) × Nat :=
  let character_path := get_character_path fs character_name emotion_index
  let cache_key := dropExtension character_path
  match cache.lookup cache_key with
  | some r =>
    let (h1, rc) := h.alloc ((h.get r).getD default)
    (h1, cache, rc)
  | none =>
    if fs.files.contains character_path then
      let (w, ht) := fs.dims character_path
      let img : MImage :=
        if (scaleNum, scaleDen) ≠ (1, 1) then
          ⟨w * scaleNum / scaleDen, ht * scaleNum / scaleDen, none⟩
        else ⟨w, ht, none⟩
      let (h1, rm) := h.alloc img
      let (h2, rc) := h1.alloc img
      (h2, (cache_key, rm) :: cache, rc)
    else
      let (h1, rd) := h.alloc ⟨800, 600, some ⟨0, 0, 0, 0⟩⟩
      (h1, cache, rd)

/-! ## Preload scheduler (src/load_utils.py, `PreloadManager`)

The depth-1 task queue, the worker's position inside a character task, and
the character-image cache it fills are the state; `submit` models
`preload_character_images_async` (drain the slot, then put the new name)
and `workerStep` models one observable step of the worker loop: dequeue a
task, or — inside a task — the check-for-newer-request followed by one
emotion load, abandonment, or completion.  Cache entries are the
(character, emotion) pairs `load_character_safe` has warmed. -/

/-- What the preload worker is doing. -/
inductive WorkerPhase
  | idle
  | running (character : String) (nextEmotion : Nat) (total : Nat)
deriving DecidableEq, Repr

/-- Queue slot, worker phase, and warmed (character, emotion) pairs. -/
structure PreloadState where
  queue : Option String
  worker : WorkerPhase
  cache : List (String × Nat)
deriving DecidableEq, Repr

/-- Embedding of `preload_character_images_async`: drain any pending task
from the depth-1 queue, then put the new character name.  Non-blocking;
the previous un-started request is silently discarded. -/
def submit (character_name : String) (s : PreloadState) : PreloadState :=
  { s with queue := some character_name }

/-- One observable step of the preload worker (`_preload_worker` together
with `_preload_character_task`).  Idle: dequeue the pending task and start
it, unless preloading is disabled (`preload_character` setting) or the
character has no configuration, in which case the task is dropped.
Running: the worker first checks whether a newer request is waiting and
abandons the remainder if so; otherwise it loads the next emotion, or
finishes when all `1..total` are done. -/
def workerStep (emotion_count : String → Nat) (preload_enabled : Bool)
    (in_config : String → Bool) (s : PreloadState) : PreloadState :=
  match s.worker with
  | .idle =>
    match s.queue with
    | none => s
    | some c =>
      if preload_enabled && in_config c then
        { queue := none, worker := .running c 1 (emotion_count c), cache := s.cache }
      else
        { s with queue := none }
  | .running c i n =>
    if s.queue.isSome then
      { s with worker := .idle }
    else if i ≤ n then
      { s with worker := .running c (i + 1) n, cache := (c, i) :: s.cache }
    else
      { s with worker := .idle }

/-- `k` worker steps. -/
def stepN (emotion_count : String → Nat) (preload_enabled : Bool)
    (in_config : String → Bool) : Nat → PreloadState → PreloadState
  | 0, s => s
  | k + 1, s => stepN emotion_count preload_enabled in_config k
      (workerStep emotion_count preload_enabled in_config s)

/-! ## Sentiment analyzer initialization
(src/utils/sentiment_analyzer.py and src/core.py)

`SentimentAnalyzer.initialize` is declared `-> bool` but its return
statements mix a bare `False` (the exception path) with 2-tuples
`(success, message)`; the value that actually reaches
`ManosabaCore._initialize_sentiment_analyzer_async` is modelled by
`PyRet`, and the core's `if success:` test by Python truthiness, under
which every 2-tuple — `(False, "")` included — is truthy. -/

/-- A Python value returned by `SentimentAnalyzer.initialize`: either a
bare bool or a `(bool, message)` tuple. -/
inductive PyRet
  | bool (b : Bool)
  | pair (b : Bool) (msg : String)
deriving DecidableEq, Repr

/-- Python truthiness of a `PyRet`: a bare bool is its own truth value; a
2-tuple is a non-empty tuple and hence always truthy. -/
def PyRet.truthy : PyRet → Bool
  | .bool b => b
  | .pair _ _ => true

/-- Python `pattern in s` on lowered character lists. -/
def infixCheck (s pat : List Char) : Bool :=
  match s with
  | [] => pat.isEmpty
  | _ :: rest => pat.isPrefixOf s || infixCheck rest pat

/-- `response.lower()` as the character list the containment test scans
(CJK characters are unaffected by lowering). -/
def pyLower (s : String) : List Char :=
  s.data.map Char.toLower

/-- Embedding of `SentimentAnalyzer.initialize`.  Inputs: whether
`AIClientManager.initialize_client` reported success (it returns
`(False, err)` on connection failure), whether sending the rule prompt
raised (that exception is caught by `initialize` itself, which then
returns a bare `False`), the model's literal reply, and the closed
emotion vocabulary.  On a reply, `is_initialized` is whether any
vocabulary token occurs in the lowered reply, and the function returns
the tuple `(is_initialized, "")`; on connection failure it returns
`(False, error_msg)`. -/
def initialize_analyzer (connect_ok : Bool) (request_raises : Bool)
    (reply : String) (emotion_list : List String) : PyRet :=
  if !connect_ok then
    .pair false "connection failed"
  else if request_raises then
    .bool false
  else
    .pair (emotion_list.any (fun kw => infixCheck (pyLower reply) kw.data)) ""

/-- Outcome of the core's initialization task observable to the rest of
the program: the status message reported, the `initialized` flag of
`sentiment_analyzer_status`, and the persisted
`sentiment_matching.enabled` setting after the task. -/
structure InitOutcome where
  status : String
  initialized : Bool
  enabled : Bool
deriving DecidableEq, Repr

/-- Embedding of the body of `init_task` inside
`ManosabaCore._initialize_sentiment_analyzer_async`: when the feature is
enabled it calls `SentimentAnalyzer.initialize` and branches on
`if success:` — Python truthiness of the returned value; only a falsy
result reaches the failure branch that clears `initialized` and calls
`_disable_sentiment_matching` (which persists `enabled = False`). -/
def init_task (enabled : Bool) (r : PyRet) : InitOutcome :=
  if enabled then
    if r.truthy then
      ⟨"情感分析器初始化完成，功能已启用", true, true⟩
    else
      ⟨"情感分析器初始化失败，功能已禁用", false, false⟩
  else
    ⟨"情感匹配功能未启用，跳过初始化", false, enabled⟩

/-! ## Sentiment-driven emotion update (src/core.py,
`_update_emotion_by_sentiment`) and the dispatch pipeline
(`generate_image`)

A preview component is a Python dict; the fields the embedded code reads
are modelled as optional, with the source's `.get` defaults applied at
the read.  `random.choice` is a parameter `choose`; the configuration
lookups `CONFIGS.get_filtered_emotions` and
`CONFIGS.mahoshojo[name].get(sentiment, [])` are parameters as well. -/

/-- The fields of a preview component dict read or written by
`_update_emotion_by_sentiment`. -/
structure Component where
  enabled : Option Bool
  type : Option String
  character_name : Option String
  emotion_filter : Option String
  emotion_index : Option Nat
  force_use : Option Bool
deriving DecidableEq, Repr

/-- Embedding of the `for component in preview_components:` loop of
`_update_emotion_by_sentiment`.  Returns the component list after the
in-place mutations together with the function's return value.  Note the
source's early `return False` when a character layer's filtered emotion
list is empty: it discards the loop's remaining layers and the `updated`
flag accumulated so far, but mutations already written stay written. -/
def update_loop (choose : List Nat → Nat)
    (filtered_emotions : String → String → List Nat)
    (sentiment_indices : String → String → List Nat)
    (sentiment current_character : String) :
    List Component → Bool → List Component × Bool
  | [], updated => ([], updated)
  | c :: rest, updated =>
    if c.enabled.getD true = false then
      let (rs, b) := update_loop choose filtered_emotions sentiment_indices
        sentiment current_character rest updated
      (c :: rs, b)
    else if c.type = some "character" then
      let character_name := c.character_name.getD current_character
      let filter_name := c.emotion_filter.getD "全部"
      let filtered := filtered_emotions character_name filter_name
      if filtered.isEmpty then
        (c :: rest, false)
      else
        let emotion_idxs := sentiment_indices character_name sentiment
        let available_emotions := emotion_idxs.filter (fun i => filtered.contains i)
        if available_emotions.isEmpty then
          let (rs, b) := update_loop choose filtered_emotions sentiment_indices
            sentiment current_character rest updated
          (c :: rs, b)
        else
          let emotion_index := choose available_emotions
          let c' := { c with emotion_index := some emotion_index,
                             force_use := some true }
          let (rs, b) := update_loop choose filtered_emotions sentiment_indices
            sentiment current_character rest true
          (c' :: rs, b)
    else
      let (rs, b) := update_loop choose filtered_emotions sentiment_indices
        sentiment current_character rest updated
      (c :: rs, b)

/-- Embedding of `_update_emotion_by_sentiment`.  `sentiment` is the
result of the single `analyze_sentiment` call (`none` models Python
`None`); the third output counts how many classification requests were
issued.  When the analyzer is not initialized the function returns early
without classifying. -/
def update_emotion_by_sentiment (initialized : Bool) (sentiment : Option String)
    (choose : List Nat → Nat)
    (filtered_emotions sentiment_indices : String → String → List Nat)
    (current_character : String) (components : List Component) :
    List Component × Bool × Nat :=
  if initialized = false then
    (components, false, 0)
  else
    match sentiment with
    | none => (components, false, 1)
    | some s =>
      let (cs, b) := update_loop choose filtered_emotions sentiment_indices
        s current_character components false
      (cs, b, 1)

/-! ### The dispatch pipeline -/

/-- The outcome of one `generate_image` invocation that the claims
observe: the returned status string, whether the renderer
(`draw_content_auto`) was invoked and with which text, whether the
composed image was copied back to the clipboard, whether the preview was
recomputed after a sentiment update, how many classification requests
ran, and the component list after the invocation. -/
structure DispatchResult where
  result : String
  composed : Bool
  composeText : Option String
  copiedBack : Bool
  previewRecomputed : Bool
  analyzeCalls : Nat
  components : List Component
deriving Repr

/-- Truthiness of Python `text.strip()`: true exactly when the text has a
non-whitespace character. -/
def strip_nonempty (s : String) : Bool :=
  s.data.any (fun c => !c.isWhitespace)

/-- The poll loop's stop condition `(text and text.strip()) or image is
not None`:  Python's `text and text.strip()` is truthy exactly when the
stripped text is non-empty. -/
def pollStop (o : String × Option Unit) : Bool :=
  strip_nonempty o.1 || o.2.isSome

/-- Embedding of the clipboard poll loop of `generate_image`: `obs` are
the successive `get_clipboard_all()` observations available up to the
2.5-second deadline; the loop leaves `text, image` bound to the first
observation meeting the stop condition, or to the deadline's last
observation when none does. -/
def poll_clipboard (obs : List (String × Option Unit)) : String × Option Unit :=
  match obs.find? pollStop with
  | some o => o
  | none => obs.getLastD ("", none)

/-- Embedding of `generate_image` from the whitelist check through the
clipboard copy-back (the keyboard-injection, timing, and auto-paste steps
carry no data the claims observe).  `compose_ok` is whether
`draw_content_auto` succeeds and `copy_ok` whether
`copy_image_to_clipboard` returns truthy; `final_msg` stands for the
accumulated status message built on the success path. -/
def generate_image_model (whitelist_ok : Bool)
    (obs : List (String × Option Unit))
    (sentiment_enabled initialize_analyzerd : Bool)
    (sentiment : Option String) (choose : List Nat → Nat)
    (filtered_emotions sentiment_indices : String → String → List Nat)
    (current_character : String) (components : List Component)
    (compose_ok : Bool) (compose_err : String) (copy_ok : Bool)
    (final_msg : String) : DispatchResult :=
  if whitelist_ok = false then
    ⟨"前台应用不在白名单内", false, none, false, false, 0, components⟩
  else
    let (text, image) := poll_clipboard obs
    let branch := sentiment_enabled && initialize_analyzerd && strip_nonempty text
    let (comps, updated, calls) :=
      if branch then
        update_emotion_by_sentiment initialize_analyzerd sentiment choose
          filtered_emotions sentiment_indices current_character components
      else (components, false, 0)
    if text = "" ∧ image = none then
      ⟨"错误: 没有文本或图像", false, none, false, updated, calls, comps⟩
    else if compose_ok = false then
      ⟨"生成图像失败: " ++ compose_err, true, some text, false, updated, calls, comps⟩
    else if copy_ok = false then
      ⟨"复制到剪贴板失败", true, some text, true, updated, calls, comps⟩
    else
      ⟨final_msg, true, some text, true, updated, calls, comps⟩

/-! ## Concrete instances used to evaluate the model -/

/-- An empty file system: no asset files exist; font names resolve to
themselves. -/
def fs0 : FS := ⟨[], fun _ => (0, 0), fun n => n⟩

/-- A character layer for character "A" with all dict fields at their
Python defaults. -/
def compA : Component := ⟨none, some "character", some "A", none, none, none⟩

/-- A character layer for character "B" with all dict fields at their
Python defaults. -/
def compB : Component := ⟨none, some "character", some "B", none, none, none⟩

/-- A filter/sentiment configuration in which character "A" has emotion 1
available and character "B" has an empty filtered emotion list. -/
def cfgA : String → String → List Nat := fun n _ => if n = "A" then [1] else []

/-- A font heap holding one cached master font at address 5. -/
def hF0 : Heap MFont := ⟨6, [(5, ⟨"font3", 24⟩)]⟩

/-- An image heap holding one cached master image at address 0. -/
def hI0 : Heap MImage := ⟨1, [(0, ⟨10, 20, none⟩)]⟩

/-! ## Theorems -/

/-- C9: the canvas used for composition always has width 2560, and its
height is 2048 for aspect ratio "5:4", 1440 for "16:9", and 854 for any
other configured value. -/
theorem C9_canvas_size (r : String) :
    (calculate_canvas_size r).1 = 2560 ∧
    (r = "5:4" → (calculate_canvas_size r).2 = 2048) ∧
    (r = "16:9" → (calculate_canvas_size r).2 = 1440) ∧
    (r ≠ "5:4" → r ≠ "16:9" → (calculate_canvas_size r).2 = 854) := by
  unfold calculate_canvas_size
  refine ⟨?_, ?_, ?_, ?_⟩ <;> intros <;> split_ifs <;> simp_all

/-- Witness for C9 at the three concrete aspect ratios. -/
theorem C9_canvas_size_witness :
    (calculate_canvas_size "5:4").2 = 2048 ∧
    (calculate_canvas_size "16:9").2 = 1440 ∧
    (calculate_canvas_size "3:1").2 = 854 :=
  ⟨(C9_canvas_size "5:4").2.1 rfl,
   (C9_canvas_size "16:9").2.2.1 rfl,
   (C9_canvas_size "3:1").2.2.2 (by decide) (by decide)⟩

/-- C7: clearing the character partition empties exactly that partition;
the font, background, and general partitions keep their prior entries. -/
theorem C7_partition_isolation (α β γ δ : Type) (s : Caches α β γ δ) :
    (clear_cache "character" s).font_cache = s.font_cache ∧
    (clear_cache "character" s).background_cache = s.background_cache ∧
    (clear_cache "character" s).general_image_cache = s.general_image_cache ∧
    (clear_cache "character" s).character_cache = [] := by
  simp [clear_cache]

/-- C8 counterexample: on macOS (`sys.platform = "darwin"`), `direct` cut
mode presses the control modifier, not the command modifier, so the cut
keystroke sequence does not use the platform-specific modifier key for
every cut mode. -/
theorem C8_counterexample :
    (cutKeystrokes "darwin" "direct").contains (KeyEvt.press PKey.cmd) = false ∧
    (cutKeystrokes "darwin" "direct").contains (KeyEvt.press PKey.ctrl) = true := by
  decide

/-- C8 amended: `full` and `single_line` use the platform-specific
modifier (control when the platform starts with "win", command
otherwise); `direct` performs only the cut keystroke — no selection
events first — and uses the control modifier on every platform. -/
theorem C8_cut_modifier (p m : String) (hm : m = "full" ∨ m = "single_line") :
    (cutKeystrokes p "direct" =
      [.press .ctrl, .press (.ch 'x'), .release (.ch 'x'), .release .ctrl]) ∧
    (is_win p = true →
      (cutKeystrokes p m).contains (KeyEvt.press PKey.ctrl) = true ∧
      (cutKeystrokes p m).contains (KeyEvt.press PKey.cmd) = false) ∧
    (is_win p = false →
      (cutKeystrokes p m).contains (KeyEvt.press PKey.cmd) = true ∧
      (cutKeystrokes p m).contains (KeyEvt.press PKey.ctrl) = false) := by
  refine ⟨by simp [cutKeystrokes], ?_, ?_⟩ <;> intro hw <;>
    rcases hm with hm | hm <;> subst hm <;> simp [cutKeystrokes, hw]

/-- Witness for C8 on concrete platforms and cut modes. -/
theorem C8_cut_modifier_witness :
    (cutKeystrokes "win32" "direct" =
      [.press .ctrl, .press (.ch 'x'), .release (.ch 'x'), .release .ctrl]) ∧
    (cutKeystrokes "win32" "full").contains (KeyEvt.press PKey.ctrl) = true ∧
    (cutKeystrokes "darwin" "single_line").contains (KeyEvt.press PKey.cmd) = true :=
  ⟨(C8_cut_modifier "win32" "full" (Or.inl rfl)).1,
   ((C8_cut_modifier "win32" "full" (Or.inl rfl)).2.1 (by decide)).1,
   ((C8_cut_modifier "darwin" "single_line" (Or.inr rfl)).2.2 (by decide)).1⟩

/-- C1: the initialization handshake contract is broken by the code.
With the feature enabled, the client connected, and a model reply
containing no token of the emotion vocabulary, `SentimentAnalyzer.initialize`
returns the tuple `(False, "")` — and because a non-empty tuple is truthy,
`ManosabaCore`'s `if success:` takes the success branch: it reports
success, marks the analyzer initialized, and leaves the feature enabled,
instead of reporting failure and persisting the disabled setting as the
claim (and the function's own `-> bool` annotation) require. -/
theorem C1_code_bug :
    initialize_analyzer true false "OK, understood" ["开心", "生气", "平静"]
      = .pair false "" ∧
    (init_task true
        (initialize_analyzer true false "OK, understood" ["开心", "生气", "平静"])).initialized
      = true ∧
    (init_task true
        (initialize_analyzer true false "OK, understood" ["开心", "生气", "平静"])).enabled
      = true ∧
    (init_task true
        (initialize_analyzer true false "OK, understood" ["开心", "生气", "平静"])).status
      = "情感分析器初始化完成，功能已启用" ∧
    initialize_analyzer false false "" ["开心", "生气", "平静"]
      = .pair false "connection failed" ∧
    (init_task true (initialize_analyzer false false "" ["开心", "生气", "平静"])).initialized
      = true := by
  decide

/-- C3: the sentiment branch is broken by the code on layer lists where a
later character layer has an empty filtered emotion list.  With two
enabled character layers — "A" whose filtered sentiment set is `[1]` and
"B" whose filtered emotion list is empty — exactly one classification
runs and layer "A" is updated in place (emotion index 1, `force_use`
set), but the loop's early `return False` on layer "B" discards the
`updated` flag, so `generate_image` never recomputes the preview, even
though a layer was updated — contradicting the claim and the function's
own docstring, which says it returns whether at least one layer was
updated. -/
theorem C3_code_bug :
    (generate_image_model true [("hello", none)] true true (some "开心")
        (fun l => l.headD 0) cfgA cfgA "A" [compA, compB] true "" true
        "ok").analyzeCalls = 1 ∧
    (generate_image_model true [("hello", none)] true true (some "开心")
        (fun l => l.headD 0) cfgA cfgA "A" [compA, compB] true "" true
        "ok").components =
      [⟨none, some "character", some "A", none, some 1, some true⟩, compB] ∧
    (generate_image_model true [("hello", none)] true true (some "开心")
        (fun l => l.headD 0) cfgA cfgA "A" [compA, compB] true "" true
        "ok").previewRecomputed = false := by
  decide

/-- C2 counterexample: with no asset files present, a general-cache read
(`load_image_cached`) of a missing image raises `FileNotFoundError` past
its boundary, and the background loader's missing-file placeholder is the
opaque colour (100, 100, 200, alpha 255), not a fully transparent image —
so the claim fails as stated. -/
theorem C2_counterexample :
    load_image_cached fs0 ⟨0, []⟩ [] "assets/background/c1.png"
      = .error "图片文件不存在: assets/background/c1.png" ∧
    (load_background_safe fs0 ⟨0, []⟩ [] "c1").1.get
        (load_background_safe fs0 ⟨0, []⟩ [] "c1").2.2
      = some ⟨2560, 1920, some ⟨100, 100, 200, 255⟩⟩ :=
  ⟨rfl, rfl⟩

/-- C2 amended: for a missing source file, the safe loaders never raise
past their boundary — `load_background_safe` returns an opaque
(100, 100, 200) placeholder scaled to the canonical 2560-pixel width and
`load_character_safe` returns a fixed-size fully transparent placeholder
— while the general image cache's `load_image_cached` instead raises
`FileNotFoundError`, so its callers do not proceed with a placeholder. -/
theorem C2_missing_asset (fs : FS) (h : Heap MImage) (cache : List (String × Nat))
    (name cname p : String) (idx sn sd : Nat)
    (hb1 : cache.lookup (get_background_path fs name) = none)
    (hb2 : fs.files.contains (get_background_path fs name) = false)
    (hc1 : cache.lookup (dropExtension (get_character_path fs cname idx)) = none)
    (hc2 : fs.files.contains (get_character_path fs cname idx) = false)
    (hp1 : cache.lookup p = none)
    (hp2 : fs.files.contains p = false) :
    ((load_background_safe fs h cache name).1.get
        (load_background_safe fs h cache name).2.2
      = some ⟨2560, 1920, some ⟨100, 100, 200, 255⟩⟩) ∧
    ((load_character_safe fs h cache cname idx sn sd).1.get
        (load_character_safe fs h cache cname idx sn sd).2.2
      = some ⟨800, 600, some ⟨0, 0, 0, 0⟩⟩) ∧
    load_image_cached fs h cache p = .error ("图片文件不存在: " ++ p) := by
  refine ⟨?_, ?_, ?_⟩
  · simp only [load_background_safe, hb1, hb2]
    simp [resizeToWidth2560, Heap.alloc, Heap.get, List.lookup]
  · simp only [load_character_safe, hc1, hc2]
    simp [Heap.alloc, Heap.get, List.lookup]
  · simp only [load_image_cached, hp1, hp2]
    simp

/-- Witness for C2 at the empty file system. -/
theorem C2_missing_asset_witness :
    ((load_background_safe fs0 ⟨0, []⟩ [] "c1").1.get
        (load_background_safe fs0 ⟨0, []⟩ [] "c1").2.2
      = some ⟨2560, 1920, some ⟨100, 100, 200, 255⟩⟩) ∧
    ((load_character_safe fs0 ⟨0, []⟩ [] "A" 1 1 1).1.get
        (load_character_safe fs0 ⟨0, []⟩ [] "A" 1 1 1).2.2
      = some ⟨800, 600, some ⟨0, 0, 0, 0⟩⟩) ∧
    load_image_cached fs0 ⟨0, []⟩ [] "assets/x.png"
      = .error ("图片文件不存在: " ++ "assets/x.png") :=
  C2_missing_asset fs0 ⟨0, []⟩ [] "c1" "A" "assets/x.png" 1 1 1
    (by decide) (by decide) (by decide) (by decide) (by decide) (by decide)

/-- Allocating a fresh cell leaves every other cell readable unchanged. -/
theorem Heap.get_alloc_ne {α : Type} (h : Heap α) (v : α) (r : Nat)
    (hr : r ≠ h.next) : (h.alloc v).1.get r = h.get r := by
  have hb : (r == h.next) = false := beq_eq_false_iff_ne.mpr hr
  simp [Heap.alloc, Heap.get, List.lookup, hb]

/-- C4 counterexample: a font-partition `get` for a cached key returns
the cached master itself — the address handed back (5) is exactly the
address the cache holds, no copy is allocated, and the heap is unchanged
— so "every cache partition returns a copy, never the cached master by
reference" fails as stated. -/
theorem C4_counterexample :
    load_font_cached fs0 hF0 [("font3_24", 5)] "font3" 24
      = .ok (hF0, [("font3_24", 5)], 5) ∧
    [("font3_24", 5)].lookup "font3_24" = some 5 :=
  ⟨rfl, rfl⟩

/-- C4 amended: the background, character, and general image partitions
each return a freshly allocated copy of the cached entry — the returned
address is new, distinct from the cached master's, the master cell is
unchanged, and a second successive get returns yet another address — but
the font partition returns the cached master by reference. -/
theorem C4_copy_semantics
    (fs : FS) (hF : Heap MFont) (hI : Heap MImage)
    (fcache icache bcache ccache : List (String × Nat))
    (fname : String) (size : Nat) (rF : Nat)
    (p bname cname : String) (idx sn sd : Nat) (rI rB rC : Nat)
    (hfhit : fcache.lookup (fname ++ "_" ++ toString size) = some rF)
    (hihit : icache.lookup p = some rI) (hiwf : rI < hI.next)
    (hbhit : bcache.lookup (get_background_path fs bname) = some rB)
    (hbwf : rB < hI.next)
    (hchit : ccache.lookup (dropExtension (get_character_path fs cname idx)) = some rC)
    (hcwf : rC < hI.next) :
    load_font_cached fs hF fcache fname size = .ok (hF, fcache, rF) ∧
    load_image_cached fs hI icache p
      = .ok ((hI.alloc ((hI.get rI).getD default)).1, icache, hI.next) ∧
    hI.next ≠ rI ∧
    (hI.alloc ((hI.get rI).getD default)).1.get rI = hI.get rI ∧
    load_background_safe fs hI bcache bname
      = ((hI.alloc ((hI.get rB).getD default)).1, bcache, hI.next) ∧
    hI.next ≠ rB ∧
    (hI.alloc ((hI.get rB).getD default)).1.get rB = hI.get rB ∧
    load_character_safe fs hI ccache cname idx sn sd
      = ((hI.alloc ((hI.get rC).getD default)).1, ccache, hI.next) ∧
    hI.next ≠ rC ∧
    (hI.alloc ((hI.get rC).getD default)).1.get rC = hI.get rC ∧
    load_character_safe fs (hI.alloc ((hI.get rC).getD default)).1 ccache cname idx sn sd
      = (((hI.alloc ((hI.get rC).getD default)).1.alloc
            (((hI.alloc ((hI.get rC).getD default)).1.get rC).getD default)).1,
         ccache, hI.next + 1) ∧
    hI.next + 1 ≠ hI.next := by
  refine ⟨?_, ?_, by omega, ?_, ?_, by omega, ?_, ?_, by omega, ?_, ?_, by omega⟩
  · simp only [load_font_cached, hfhit]
  · simp only [load_image_cached, hihit, Heap.alloc]
  · exact Heap.get_alloc_ne hI _ rI (by omega)
  · simp only [load_background_safe, hbhit, Heap.alloc]
  · exact Heap.get_alloc_ne hI _ rB (by omega)
  · simp only [load_character_safe, hchit, Heap.alloc]
  · exact Heap.get_alloc_ne hI _ rC (by omega)
  · simp only [load_character_safe, hchit, Heap.alloc]

/-- Witness for C4 at a concrete heap and caches. -/
theorem C4_copy_semantics_witness :
    load_font_cached fs0 hF0 [("font3_24", 5)] "font3" 24
      = .ok (hF0, [("font3_24", 5)], 5) ∧
    load_image_cached fs0 hI0 [("k", 0)] "k"
      = .ok ((hI0.alloc ((hI0.get 0).getD default)).1, [("k", 0)], hI0.next) ∧
    hI0.next ≠ 0 :=
  have H := C4_copy_semantics fs0 hF0 hI0 [("font3_24", 5)] [("k", 0)]
    [(get_background_path fs0 "c1", 0)]
    [(dropExtension (get_character_path fs0 "A" 1), 0)]
    "font3" 24 5 "k" "c1" "A" 1 1 1 0 0 0
    (by decide) (by decide) (by decide) (by decide) (by decide) (by decide)
    (by decide)
  ⟨H.1, H.2.1, H.2.2.1⟩

/-- The default-carrying last element of a non-empty list is a member. -/
theorem getLastD_mem {α : Type} (l : List α) (d : α) (h : l ≠ []) :
    l.getLastD d ∈ l := by
  induction l generalizing d with
  | nil => exact absurd rfl h
  | cons a t ih =>
    rw [List.getLastD_cons]
    cases t with
    | nil => simp [List.getLastD]
    | cons b u => exact List.mem_cons_of_mem a (ih a (by simp))

/-- When no observation meets the stop condition, the poll loop leaves
the last observation bound. -/
theorem poll_clipboard_timeout (obs : List (String × Option Unit))
    (hfind : obs.find? pollStop = none) :
    poll_clipboard obs = obs.getLastD ("", none) := by
  unfold poll_clipboard
  rw [hfind]

/-- C5: if every clipboard poll up to the 2.5-second deadline observes
empty text and no image, `generate_image` returns exactly the
"no content" result string, and neither the renderer nor the clipboard
copy-back is ever invoked. -/
theorem C5_no_content (obs : List (String × Option Unit))
    (se ai : Bool) (sent : Option String) (choose : List Nat → Nat)
    (fe si : String → String → List Nat) (cc : String)
    (comps : List Component) (cok : Bool) (cerr : String) (kok : Bool)
    (fm : String) (hne : obs ≠ []) (hobs : ∀ o ∈ obs, o = ("", none)) :
    (generate_image_model true obs se ai sent choose fe si cc comps
        cok cerr kok fm).result = "错误: 没有文本或图像" ∧
    (generate_image_model true obs se ai sent choose fe si cc comps
        cok cerr kok fm).composed = false ∧
    (generate_image_model true obs se ai sent choose fe si cc comps
        cok cerr kok fm).copiedBack = false := by
  have hfind : obs.find? pollStop = none := by
    rw [List.find?_eq_none]
    intro x hx
    rw [hobs x hx]
    decide
  have hpoll : poll_clipboard obs = ("", none) := by
    rw [poll_clipboard_timeout obs hfind]
    exact hobs _ (getLastD_mem obs _ hne)
  simp [generate_image_model, hpoll, strip_nonempty]

/-- Witness for C5 at a single all-empty observation. -/
theorem C5_no_content_witness :
    (generate_image_model true [("", none)] true true none (fun l => l.headD 0)
        cfgA cfgA "A" [compA] true "" true "ok").result = "错误: 没有文本或图像" ∧
    (generate_image_model true [("", none)] true true none (fun l => l.headD 0)
        cfgA cfgA "A" [compA] true "" true "ok").composed = false ∧
    (generate_image_model true [("", none)] true true none (fun l => l.headD 0)
        cfgA cfgA "A" [compA] true "" true "ok").copiedBack = false :=
  C5_no_content [("", none)] true true none (fun l => l.headD 0) cfgA cfgA "A"
    [compA] true "" true "ok" (by decide) (by intro o ho; simp at ho; exact ho)

/-- C10: if every clipboard poll yields whitespace-only non-empty text
and no image, the poll loop never meets its stop condition (it runs to
the full deadline), but the empty guard compares against the exactly
empty string, so the pipeline does not return the "no content" result:
composition is attempted with the whitespace text. -/
theorem C10_whitespace_text (obs : List (String × Option Unit))
    (se ai : Bool) (sent : Option String) (choose : List Nat → Nat)
    (fe si : String → String → List Nat) (cc : String)
    (comps : List Component) (cok : Bool) (cerr : String) (kok : Bool)
    (fm : String) (hne : obs ≠ [])
    (hobs : ∀ o ∈ obs, o.1.data.all Char.isWhitespace = true ∧ o.1 ≠ "" ∧
      o.2 = none) :
    obs.find? pollStop = none ∧
    (generate_image_model true obs se ai sent choose fe si cc comps
        cok cerr kok fm).composed = true ∧
    (generate_image_model true obs se ai sent choose fe si cc comps
        cok cerr kok fm).composeText = some (obs.getLastD ("", none)).1 := by
  have hstrip : ∀ o ∈ obs, strip_nonempty o.1 = false := by
    intro o ho
    rw [strip_nonempty, List.any_eq_false]
    intro c hc
    simp [List.all_eq_true.mp (hobs o ho).1 c hc]
  have hfind : obs.find? pollStop = none := by
    rw [List.find?_eq_none]
    intro x hx
    simp [pollStop, hstrip x hx, (hobs x hx).2.2]
  have hpoll : poll_clipboard obs = obs.getLastD ("", none) :=
    poll_clipboard_timeout obs hfind
  have hlast := hobs _ (getLastD_mem obs ("", none) hne)
  refine ⟨hfind, ?_⟩
  have hguard : ¬((obs.getLastD ("", none)).1 = "" ∧
      (obs.getLastD ("", none)).2 = none) := fun hand => hlast.2.1 hand.1
  simp only [generate_image_model, hpoll]
  rw [if_neg (by simp)]
  simp only [if_neg hguard]
  cases cok <;> cases kok <;> simp

/-- Witness for C10 at a single whitespace observation. -/
theorem C10_whitespace_text_witness :
    ([((" " : String), (none : Option Unit))].find? pollStop = none) ∧
    (generate_image_model true [(" ", none)] true true none (fun l => l.headD 0)
        cfgA cfgA "A" [compA] true "" true "ok").composed = true ∧
    (generate_image_model true [(" ", none)] true true none (fun l => l.headD 0)
        cfgA cfgA "A" [compA] true "" true "ok").composeText
      = some ([((" " : String), (none : Option Unit))].getLastD ("", none)).1 :=
  C10_whitespace_text [(" ", none)] true true none (fun l => l.headD 0) cfgA cfgA
    "A" [compA] true "" true "ok" (by decide)
    (by intro o ho; simp at ho; rw [ho]; exact ⟨by decide, by decide, rfl⟩)

/-- One worker step preserves the invariant "the queue and the running
task only ever mention `B`", and every cache entry it adds is for `B`. -/
theorem workerStep_facts (ec : String → Nat) (en : Bool) (icf : String → Bool)
    (s : PreloadState) (B : String)
    (hq : ∀ c, s.queue = some c → c = B)
    (hw : ∀ c i n, s.worker = .running c i n → c = B) :
    (∀ c, (workerStep ec en icf s).queue = some c → c = B) ∧
    (∀ c i n, (workerStep ec en icf s).worker = .running c i n → c = B) ∧
    (∀ e ∈ (workerStep ec en icf s).cache, e ∈ s.cache ∨ e.1 = B) := by
  unfold workerStep
  cases hwk : s.worker with
  | idle =>
    cases hqe : s.queue with
    | none =>
      exact ⟨fun c hc => hq c (by rw [hqe] at hc ⊢; exact hc),
        fun c i n hc => by rw [hwk] at hc; exact absurd hc (by simp),
        fun e he => Or.inl he⟩
    | some c0 =>
      have hc0 : c0 = B := hq c0 hqe
      by_cases hen : (en && icf c0) = true
      · simp only [hen, if_true]
        exact ⟨fun c hc => by simp at hc,
          fun c i n hc => by simp at hc; rw [← hc.1, hc0],
          fun e he => Or.inl he⟩
      · simp only [hen, if_false]
        exact ⟨fun c hc => by simp at hc,
          fun c i n hc => by simp at hc,
          fun e he => Or.inl he⟩
  | running c0 i0 n0 =>
    have hc0 : c0 = B := hw c0 i0 n0 hwk
    by_cases hqs : s.queue.isSome = true
    · simp only [hqs, if_true]
      exact ⟨fun c hc => hq c hc,
        fun c i n hc => by simp at hc,
        fun e he => Or.inl he⟩
    · simp only [hqs, if_false]
      by_cases hle : i0 ≤ n0
      · simp only [hle, if_true]
        refine ⟨fun c hc => hq c hc,
          fun c i n hc => by simp at hc; rw [← hc.1, hc0], ?_⟩
        intro e he
        simp at he
        rcases he with he | he
        · exact Or.inr (by rw [he, hc0])
        · exact Or.inl he
      · simp only [hle, if_false]
        exact ⟨fun c hc => hq c hc,
          fun c i n hc => by simp at hc,
          fun e he => Or.inl he⟩

/-- Under the same invariant, any number of worker steps only ever adds
cache entries for `B`. -/
theorem stepN_only_B (ec : String → Nat) (en : Bool) (icf : String → Bool)
    (B : String) (k : Nat) :
    ∀ s : PreloadState,
      (∀ c, s.queue = some c → c = B) →
      (∀ c i n, s.worker = .running c i n → c = B) →
      ∀ e ∈ (stepN ec en icf k s).cache, e ∈ s.cache ∨ e.1 = B := by
  induction k with
  | zero => intro s _ _ e he; exact Or.inl he
  | succ k ih =>
    intro s hq hw e he
    obtain ⟨hq', hw', hcache⟩ := workerStep_facts ec en icf s B hq hw
    rcases ih (workerStep ec en icf s) hq' hw' e he with h | h
    · exact hcache e h
    · exact Or.inr h

/-- C6: (a) submitting `B` while `A` sits unstarted in the slot and the
worker is idle silently discards `A` — the slot then holds `B`, and every
cache entry ever added afterwards (any number of worker steps, no further
submissions) is for `B`; (b) if the worker is mid-way through `A` and
observes `B` waiting, its very next step abandons `A`'s remaining
emotions without touching the cache, and everything already cached
survives every worker step. -/
theorem C6_preload_supersession (ec : String → Nat) (en : Bool)
    (icf : String → Bool) (s : PreloadState) (A B : String) :
    (s.worker = .idle → s.queue = some A →
      (submit B s).queue = some B ∧
      ∀ k, ∀ e ∈ (stepN ec en icf k (submit B s)).cache,
        e ∈ s.cache ∨ e.1 = B) ∧
    (∀ i n, s.worker = .running A i n → s.queue = some B →
      workerStep ec en icf s = { s with worker := .idle } ∧
      ∀ e ∈ s.cache, e ∈ (workerStep ec en icf s).cache) := by
  constructor
  · intro hidle _
    refine ⟨rfl, fun k e he => ?_⟩
    exact stepN_only_B ec en icf B k (submit B s)
      (fun c hc => by simp [submit] at hc; exact hc.symm)
      (fun c i n hc => by simp [submit, hidle] at hc)
      e he
  · intro i n hrun hq
    have hqs : s.queue.isSome = true := by rw [hq]; rfl
    constructor
    · unfold workerStep
      rw [hrun]
      simp [hqs]
    · intro e he
      unfold workerStep
      rw [hrun]
      simp [hqs]
      exact he

/-- Witness for C6: a concrete state with "A" pending unstarted, a
submission of "B", four worker steps, and a concrete mid-task
abandonment. -/
theorem C6_preload_supersession_witness :
    ((submit "B" ⟨some "A", .idle, [("A", 1)]⟩).queue = some "B" ∧
      (("B", 2) ∈ ([("A", 1)] : List (String × Nat)) ∨ ("B", 2).1 = "B")) ∧
    (workerStep (fun _ => 2) true (fun _ => true)
        ⟨some "B", .running "A" 2 5, [("A", 1)]⟩
      = ⟨some "B", .idle, [("A", 1)]⟩ ∧
      ("A", 1) ∈ (workerStep (fun _ => 2) true (fun _ => true)
        ⟨some "B", .running "A" 2 5, [("A", 1)]⟩).cache) :=
  have H := C6_preload_supersession (fun _ => 2) true (fun _ => true)
    ⟨some "A", .idle, [("A", 1)]⟩ "A" "B"
  have Ha := H.1 rfl rfl
  ⟨⟨Ha.1, Ha.2 4 ("B", 2) (by decide)⟩, by
    have Hb' := (C6_preload_supersession (fun _ => 2) true (fun _ => true)
      ⟨some "B", .running "A" 2 5, [("A", 1)]⟩ "A" "B").2 2 5 rfl rfl
    exact ⟨Hb'.1, Hb'.2 ("A", 1) (by decide)⟩⟩

end Manosaba
